import Mathlib

/-!
Verification of the iso14229 RT-Thread UDS example suite.

This file gives a shallow embedding, in Lean 4, of the parts of the
repository relevant to the frozen claims:

* the server event dispatcher and service registration
  (`examples/rtt_server/server_demo/iso14229_rtt.c`),
* the security-access and file-transfer service handlers
  (`examples/rtt_server/server_demo/service/service_0x36_0x37_0x38_file.c`,
  which also holds `service_0x27_security.c`),
* the client heartbeat monitor (`uds_context.c`),
* the client download command (`client_0x36_0x37_0x38_file.c`),
* the console capture sink (`service_0x31_console.c`),
* the client response registry (`response_registry.c`).

Machine integers are modelled as `Nat` (all the C arithmetic involved is
unsigned); 32-bit truncation is made explicit where the C code relies on it.
C functions with side effects (file close/unlink, `copyResponse` callbacks,
console writes) are modelled by explicit state passing: each handler returns
the updated state together with a record of its externally visible effects.
-/

/- ==========================================================================
   UDS result codes.

   Modelled from the spec: the core library header `iso14229.h` (which
   defines the `UDSErr_t` enumeration) is not under `src/`; the byte values
   below are the NRC values listed in the spec, section 6 ("NRC set used"),
   together with `UDS_PositiveResponse = 0`.  `RTT_UDS_CONTINUE` is defined
   in `src/examples/rtt_server/server_demo/iso14229_rtt.h` as
   `((UDSErr_t)-2)`.  `UDSErr_t` is a signed type, hence `Int`.
   ========================================================================== -/

def UDS_PositiveResponse : Int := 0

def RTT_UDS_CONTINUE : Int := -2

def UDS_NRC_ServiceNotSupported : Int := 0x11

def UDS_NRC_SubFunctionNotSupported : Int := 0x12

def UDS_NRC_IncorrectMessageLengthOrInvalidFormat : Int := 0x13

def UDS_NRC_ConditionsNotCorrect : Int := 0x22

def UDS_NRC_RequestSequenceError : Int := 0x24

def UDS_NRC_RequestOutOfRange : Int := 0x31

def UDS_NRC_InvalidKey : Int := 0x35

def UDS_NRC_GeneralProgrammingFailure : Int := 0x72

def UDS_NRC_RequestCorrectlyReceived_ResponsePending : Int := 0x78

def UDS_NRC_SubFunctionNotSupportedInActiveSession : Int := 0x7E

/- ==========================================================================
   C1 / C2 — server event dispatcher and service registration
   (`iso14229_rtt.c`, `server_event_dispatcher` and
   `rtt_uds_service_register`).
   ========================================================================== -/

/-- A registered service node (`uds_service_node_t` in `iso14229_rtt.h`).
`event` is the bound event kind, `priority` the `uint8_t` execution
priority.  The `handler`/`context`/`name` fields, which do not matter for
the ordering claims, are abstracted into an identity tag `tag` that makes
distinct registrations distinguishable. -/
structure ServiceNode where
  event : Nat
  priority : Nat
  tag : Nat
deriving DecidableEq, Repr

/-- The insertion loop of `rtt_uds_service_register` (iso14229_rtt.c,
lines 457-472): walk the chain; insert the new node before the first node
whose priority is strictly greater; if no such node exists (or the chain is
empty), append at the end. -/
def chain_insert (node : ServiceNode) : List ServiceNode → List ServiceNode
  | [] => [node]
  | curr :: rest =>
    if node.priority < curr.priority then node :: curr :: rest
    else curr :: chain_insert node rest

/-- `rtt_uds_service_register` acting on the event table
(`env->event_table`, one chain per event kind).  The C function also
rejects a node whose `event` overflows the table or that is already linked
(`-RT_EINVAL` / `-RT_EBUSY`); those early returns leave the table unchanged,
so the table evolution of a sequence of successful registrations is the
fold below. -/
def rtt_uds_service_register (table : Nat → List ServiceNode) (node : ServiceNode) :
    Nat → List ServiceNode :=
  fun e => if e = node.event then chain_insert node (table e) else table e

/-- The event table reached from the empty table after a sequence of
`rtt_uds_service_register` calls, in call order. -/
def register_all (nodes : List ServiceNode) : Nat → List ServiceNode :=
  nodes.foldl rtt_uds_service_register (fun _ => [])

/-- Result classification of `server_event_dispatcher`
(iso14229_rtt.c, lines 208-254): iterate over the chain's handler results
in chain order, carrying `final_result` (initially ServiceNotSupported).
CONTINUE marks the event handled and keeps iterating; Positive or 0x78
stops and is returned; RequestOutOfRange or SubFunctionNotSupported means
"not mine" and iteration continues; any other result stops and is
returned.  Each list element is the value returned by the corresponding
(non-NULL) handler, in chain order. -/
def dispatch_loop : List Int → Int → Int
  | [], acc => acc
  | r :: rest, acc =>
    if r = RTT_UDS_CONTINUE then dispatch_loop rest UDS_PositiveResponse
    else if r = UDS_PositiveResponse ∨
            r = UDS_NRC_RequestCorrectlyReceived_ResponsePending then r
    else if r = UDS_NRC_RequestOutOfRange ∨
            r = UDS_NRC_SubFunctionNotSupported then dispatch_loop rest acc
    else r

/-- `server_event_dispatcher` (iso14229_rtt.c, lines 184-262), as a function
of the handler results of the chain registered for the dispatched event: an
empty chain returns ServiceNotSupported at once; otherwise the chain is
walked by `dispatch_loop` starting from `final_result = ServiceNotSupported`. -/
def server_event_dispatcher (chain : List Int) : Int :=
  if chain = [] then UDS_NRC_ServiceNotSupported
  else dispatch_loop chain UDS_NRC_ServiceNotSupported

/-- A handler result that stops the chain: everything except the CONTINUE
sentinel and the two "not mine" codes. -/
def dispatch_stops (r : Int) : Bool :=
  ¬ (r = RTT_UDS_CONTINUE ∨ r = UDS_NRC_RequestOutOfRange ∨
     r = UDS_NRC_SubFunctionNotSupported)

/- ==========================================================================
   C3 — client heartbeat monitor (`uds_context.c`).
   ========================================================================== -/

def MAX_HEARTBEAT_RETRIES : Nat := 3

/-- The heartbeat-relevant client state of `uds_context.c`:
`g_client.state` (0 = idle), the consecutive failure counter
`g_heartbeat_fail_count`, and the cumulative number of times
`trigger_disconnect_logic` has invoked the registered disconnect
callback. -/
structure HbState where
  client_state : Nat
  fail_count : Nat
  disconnect_fires : Nat
deriving DecidableEq, Repr

/-- `uds_send_heartbeat_safe` (uds_context.c, lines 291-315) as a state
transition.  `send_err` tells whether `UDSSendTesterPresent` returned a
synchronous error.  Returns the new state and the C return value
(-1 busy, -2 send error, 0 ok).  On a synchronous error the failure
counter is incremented and, when it reaches `MAX_HEARTBEAT_RETRIES`, the
disconnect callback fires. -/
def uds_send_heartbeat_safe (st : HbState) (send_err : Bool) : HbState × Int :=
  if st.client_state ≠ 0 then (st, -1)
  else if send_err then
    let c := st.fail_count + 1
    ({ st with
       fail_count := c,
       disconnect_fires :=
         st.disconnect_fires + (if MAX_HEARTBEAT_RETRIES ≤ c then 1 else 0) }, -2)
  else (st, 0)

/-- The `UDS_EVT_ResponseReceived` branch of `client_event_handler`
(uds_context.c, lines 106-142): any successful response resets the
failure counter. -/
def client_event_response_received (st : HbState) : HbState :=
  { st with fail_count := 0 }

/-- Run `n` consecutive synchronously-failing heartbeat sends. -/
def run_heartbeat_failures (st : HbState) : Nat → HbState
  | 0 => st
  | n + 1 => run_heartbeat_failures (uds_send_heartbeat_safe st true).1 n

/-- The idle client state with a zero failure counter and no disconnect
callback fired yet. -/
def hb_init : HbState := { client_state := 0, fail_count := 0, disconnect_fires := 0 }

/- ==========================================================================
   C7 — running CRC-32 (`service_0x36_0x37_0x38_file.c`, `crc32_calc`;
   the client keeps a byte-identical copy in `utils.c`).
   ========================================================================== -/

/-- One iteration of the inner `for (k = 0; k < 8; k++)` loop of
`crc32_calc`: `crc = (crc >> 1) ^ ((crc & 1) ? 0xEDB88320 : 0)`. -/
def crc32_round (crc : Nat) : Nat :=
  (crc >>> 1) ^^^ (if crc &&& 1 = 1 then 0xEDB88320 else 0)

/-- Folding one input byte into the raw (inverted) CRC state:
`crc ^= *data++` followed by eight `crc32_round` iterations. -/
def crc32_byte (crc b : Nat) : Nat :=
  crc32_round^[8] (crc ^^^ b)

/-- `crc32_calc` (service_0x36_0x37_0x38_file.c, lines 35-45): pre-invert
the incoming crc against 0xFFFFFFFF (`crc = ~crc` on `uint32_t`), fold the
data bytes, post-invert the result (`return ~crc`). -/
def crc32_calc (crc : Nat) (data : List Nat) : Nat :=
  (data.foldl crc32_byte (crc ^^^ 0xFFFFFFFF)) ^^^ 0xFFFFFFFF

/- ==========================================================================
   C4 / C8 — Security Access handlers (`service_0x27_security.c`,
   `handle_request_seed` and `handle_validate_key`).
   ========================================================================== -/

/-- The per-level security instance (`uds_security_service_t`): the odd
supported level, the secret key, and the transient outstanding seed
(0 means "no outstanding seed").  All three are 32-bit-or-smaller unsigned
fields, modelled as `Nat`. -/
structure SecService where
  supported_level : Nat
  secret_key : Nat
  current_seed : Nat
deriving DecidableEq, Repr

/-- `calculate_key` (service_0x27_security.c): the demo seed-to-key
algorithm, a plain XOR with the instance's secret mask. -/
def calculate_key (seed mask : Nat) : Nat := seed ^^^ mask

/-- Big-endian deserialisation of four received bytes, as done by the
`received_key |= args->key[i] << (24 - 8*i)` lines of `handle_validate_key`
and the symmetric lines of `handle_upload`/`handle_transfer_exit`. -/
def be32_of_bytes (b0 b1 b2 b3 : Nat) : Nat :=
  (b0 <<< 24) ||| (b1 <<< 16) ||| (b2 <<< 8) ||| b3

/-- Big-endian serialisation of a 32-bit value into four bytes, as done by
the `seed_buf[i] = (seed >> (24 - 8*i)) & 0xFF` lines of
`handle_request_seed` (and the `crc_buf` lines of `handle_transfer_exit`). -/
def be32_to_bytes (v : Nat) : List Nat :=
  [(v >>> 24) &&& 0xFF, (v >>> 16) &&& 0xFF, (v >>> 8) &&& 0xFF, v &&& 0xFF]

/-- `handle_request_seed` (service_0x27_security.c, lines 305-348) as a
function of the instance state, the server's current `securityLevel`, the
requested level, the value `fresh` that `generate_seed()` returns for this
invocation (the tick-based PRNG is external, so its output is a parameter),
and the value `copy_ret` returned by the core's `copySeed` callback.
Returns the new instance state, the bytes handed to `copySeed` (empty if it
was not called), and the handler's return value. -/
def handle_request_seed (ctx : SecService) (srv_securityLevel level fresh : Nat)
    (copy_ret : Int) : SecService × List Nat × Int :=
  if level ≠ ctx.supported_level then (ctx, [], UDS_NRC_SubFunctionNotSupported)
  else if srv_securityLevel = level then (ctx, [0, 0, 0, 0], copy_ret)
  else
    let ctx2 := { ctx with current_seed := fresh }
    (ctx2, be32_to_bytes ctx2.current_seed, copy_ret)

/-- `handle_validate_key` (service_0x27_security.c, lines 353-411):
check the level, then the outstanding-seed requirement, then the key
length; deserialise the received key big-endian, compute the expected key,
clear the seed (single use), and compare.  Returns the new instance state
and the handler's return value. -/
def handle_validate_key (ctx : SecService) (level : Nat) (key : List Nat) :
    SecService × Int :=
  if level ≠ ctx.supported_level then (ctx, UDS_NRC_SubFunctionNotSupported)
  else if ctx.current_seed = 0 then (ctx, UDS_NRC_RequestSequenceError)
  else
    match key with
    | [k0, k1, k2, k3] =>
      let received_key := be32_of_bytes k0 k1 k2 k3
      let expected_key := calculate_key ctx.current_seed ctx.secret_key
      let ctx2 := { ctx with current_seed := 0 }
      if received_key = expected_key then (ctx2, UDS_PositiveResponse)
      else (ctx2, UDS_NRC_InvalidKey)
    | _ => (ctx, UDS_NRC_IncorrectMessageLengthOrInvalidFormat)

/- ==========================================================================
   C5 — server RequestTransferExit handler
   (`service_0x36_0x37_0x38_file.c`, `handle_transfer_exit`).
   ========================================================================== -/

/-- The file-session mode (`FILE_MODE_*`). -/
inductive FileMode where
  | idle
  | writing
  | reading
deriving DecidableEq, Repr

/-- The file-transfer service context (`uds_file_service_t`), restricted to
the fields `handle_transfer_exit` touches: the file descriptor (`-1` when
invalid), the session mode, the stored path and the running CRC. -/
structure FileCtx where
  fd : Int
  mode : FileMode
  current_path : String
  current_crc : Nat
deriving DecidableEq, Repr

/-- The externally visible effects of one `handle_transfer_exit` call:
the file descriptors passed to `close`, the paths passed to `unlink`, the
bytes handed to `args->copyResponse` (if it was called), and the handler's
return value. -/
structure ExitEffects where
  closed : List Int
  unlinked : List String
  response : List Nat
  ret : Int
deriving DecidableEq, Repr

/-- `handle_transfer_exit` (service_0x36_0x37_0x38_file.c, lines 159-204).
`req` is `args->data` (the client-supplied bytes), `copyResponse` is
`none` when `args->copyResponse` is NULL and `some r` when it is a callback
returning `r`.  Control flow, mirroring the C:
sequence error when `fd < 0`; in Writing mode a supplied CRC (≥ 4 bytes)
is checked and a mismatch closes, unlinks and fails; in Reading mode the
running CRC is serialised big-endian, the mode set to Idle, and — when the
callback is present — the handler returns the callback's value right there;
every other path falls through to the common close-and-reset tail. -/
def handle_transfer_exit (ctx : FileCtx) (req : List Nat)
    (copyResponse : Option Int) : FileCtx × ExitEffects :=
  if ctx.fd < 0 then
    (ctx, { closed := [], unlinked := [], response := [],
            ret := UDS_NRC_RequestSequenceError })
  else
    match ctx.mode, req with
    | FileMode.writing, b0 :: b1 :: b2 :: b3 :: _ =>
      let client_crc := be32_of_bytes b0 b1 b2 b3
      if client_crc ≠ ctx.current_crc then
        ({ ctx with fd := -1, mode := FileMode.idle },
         { closed := [ctx.fd], unlinked := [ctx.current_path], response := [],
           ret := UDS_NRC_GeneralProgrammingFailure })
      else
        ({ ctx with fd := -1, mode := FileMode.idle },
         { closed := [ctx.fd], unlinked := [], response := [],
           ret := UDS_PositiveResponse })
    | FileMode.reading, _ =>
      let crc_buf := be32_to_bytes ctx.current_crc
      match copyResponse with
      | some r =>
        ({ ctx with mode := FileMode.idle },
         { closed := [], unlinked := [], response := crc_buf, ret := r })
      | none =>
        ({ ctx with fd := -1, mode := FileMode.idle },
         { closed := [ctx.fd], unlinked := [], response := [],
           ret := UDS_PositiveResponse })
    | _, _ =>
      ({ ctx with fd := -1, mode := FileMode.idle },
       { closed := [ctx.fd], unlinked := [], response := [],
         ret := UDS_PositiveResponse })

/- ==========================================================================
   C6 — client download command (`client_0x36_0x37_0x38_file.c`,
   `handle_download`).
   ========================================================================== -/

/-- One iteration of the `ry` transfer loop, seen from the client: the NRC
observed after waiting for the 0x36 TransferData response (0 = positive),
and the payload bytes of the response (`recv_buf[2..]`, so that
`data.length = recv_size - 2`). -/
structure DlBlock where
  nrc : Nat
  data : List Nat
deriving DecidableEq, Repr

/-- The environment of one `handle_download` run: whether `fopen` of the
local file succeeds, whether the initial 0x38 `UDS_TRANSACTION` reports
success, the remote size announced in the 0x38 response, the scripted
outcomes of the successive TransferData iterations, and whether the final
0x37 `UDS_TRANSACTION` reports success. -/
structure DlEnv where
  fopen_ok : Bool
  req_ok : Bool
  total_size : Nat
  blocks : List DlBlock
  exit_ok : Bool
deriving DecidableEq, Repr

/-- The observable outcome of `handle_download`: the C return value, whether
the local file was ever opened, whether `remove(filename)` was called, and
the number of payload bytes written to the local file. -/
structure DlResult where
  ret : Int
  opened : Bool
  removed : Bool
  written : Nat
deriving DecidableEq, Repr

/-- Outcome of the `while (!eof)` transfer loop of `handle_download`:
either some block failed with a nonzero NRC, or EOF was reached with the
given number of received (= written) bytes. -/
inductive DlLoopOut where
  | err (written : Nat)
  | done (written : Nat)
deriving DecidableEq, Repr

/-- The `while (!eof)` loop of `handle_download`
(client_0x36_0x37_0x38_file.c, lines 249-283): each iteration requests a
block; a nonzero NRC aborts; a nonempty payload is written and counted,
and EOF is declared when the known total size has been received; an empty
payload is EOF.  `none` when the script runs out of blocks before the loop
exits (such a run is not modelled). -/
def dl_loop (total : Nat) : List DlBlock → Nat → Option DlLoopOut
  | [], _ => none
  | b :: rest, received =>
    if b.nrc ≠ 0 then some (DlLoopOut.err received)
    else if b.data.length > 0 then
      let received2 := received + b.data.length
      if total > 0 ∧ received2 ≥ total then some (DlLoopOut.done received2)
      else dl_loop total rest received2
    else some (DlLoopOut.done received)

/-- `handle_download` (client_0x36_0x37_0x38_file.c, lines 210-295):
open the local file for writing (failure → return -1, nothing to remove);
run the 0x38 ReadFile transaction (failure → `fclose`, `remove`, -1);
run the transfer loop (block NRC → `fclose`, -1, and the partial file is
NOT removed); on EOF, `fclose` and run the 0x37 exit transaction (its
failure → -1, file kept). -/
def handle_download (env : DlEnv) : Option DlResult :=
  if ¬ env.fopen_ok then
    some { ret := -1, opened := false, removed := false, written := 0 }
  else if ¬ env.req_ok then
    some { ret := -1, opened := true, removed := true, written := 0 }
  else
    match dl_loop env.total_size env.blocks 0 with
    | none => none
    | some (DlLoopOut.err w) =>
      some { ret := -1, opened := true, removed := false, written := w }
    | some (DlLoopOut.done w) =>
      some { ret := if env.exit_ok then 0 else -1, opened := true,
             removed := false, written := w }

/- ==========================================================================
   C9 — console capture sink (`service_0x31_console.c`, `vcon_write`).
   ========================================================================== -/

def UDS_CONSOLE_BUF_SIZE : Nat := 4000

/-- The bytes of the literal overflow marker `"\n[TRUNCATED]\n"` written by
`vcon_write` (its `rt_strlen` is 13). -/
def vcon_marker : List Nat := [10, 91, 84, 82, 85, 78, 67, 65, 84, 69, 68, 93, 10]

/-- The capture state of `uds_console_service_t` used by `vcon_write`:
the byte buffer (modelled as a total map from index to byte so that
out-of-bounds accesses are expressible), the write position and the
overflow flag. -/
structure VconState where
  buffer : Nat → Nat
  pos : Nat
  overflow : Bool

/-- `rt_memcpy(&buffer[dst], src, src.length)`: update the buffer map at
indices `dst, dst+1, ...` with the bytes of `src`. -/
def buf_memcpy (buf : Nat → Nat) (dst : Nat) : List Nat → (Nat → Nat)
  | [] => buf
  | b :: rest => buf_memcpy (Function.update buf dst b) (dst + 1) rest

/-- `vcon_write` (service_0x31_console.c, lines 34-86) on the capture state
(`size` is the length of `str`; the pass-through to the physical UART is
compiled out and not modelled).  Returns the new state and the `rt_ssize_t`
return value.  `available` is computed with `rt_size_t` (unsigned 32-bit)
arithmetic, made explicit with `Int` and `% 2^32`. -/
def vcon_write (st : VconState) (str : List Nat) : VconState × Nat :=
  if st.overflow then (st, str.length)
  else
    let available : Nat :=
      (((UDS_CONSOLE_BUF_SIZE : Int) - (st.pos : Int) - 1) % (2 ^ 32 : Int)).toNat
    if str.length ≤ available then
      let buf1 := buf_memcpy st.buffer st.pos str
      let pos1 := st.pos + str.length
      ({ buffer := Function.update buf1 pos1 0, pos := pos1, overflow := false },
       str.length)
    else
      let ovf_len := vcon_marker.length
      let stA :=
        if available > ovf_len then
          let write_len := available - ovf_len
          { st with buffer := buf_memcpy st.buffer st.pos (str.take write_len),
                    pos := st.pos + write_len }
        else if available < ovf_len then
          let backtrack := ovf_len - available
          if st.pos ≥ backtrack then { st with pos := st.pos - backtrack }
          else { st with pos := 0 }
        else st
      let buf2 := buf_memcpy stA.buffer stA.pos vcon_marker
      let pos2 := stA.pos + ovf_len
      ({ buffer := Function.update buf2 pos2 0, pos := pos2, overflow := true },
       str.length)

/-- The capture state set up by `capture_start`: `pos = 0`,
`overflow = RT_FALSE`, `buffer[0] = '\0'`; the rest of the buffer keeps
whatever bytes it held before (`initial`). -/
def vcon_init_state (initial : Nat → Nat) : VconState :=
  { buffer := Function.update initial 0 0, pos := 0, overflow := false }

/-- The capture state after a sequence of `vcon_write` calls starting from
`vcon_init_state initial`. -/
def vcon_run (initial : Nat → Nat) (writes : List (List Nat)) : VconState :=
  writes.foldl (fun st w => (vcon_write st w).1) (vcon_init_state initial)

/- ==========================================================================
   C10 — client response registry (`response_registry.c`,
   `response_register`).
   ========================================================================== -/

def MAX_HANDLERS : Nat := 16

/-- One registry entry (`ResEntry`): the response SID and the handler,
the latter abstracted as an identity tag. -/
structure ResEntry where
  sid : Nat
  handler : Nat
deriving DecidableEq, Repr

/-- The overwrite scan of `response_register` (response_registry.c,
lines 79-84): walk the first `g_res_count` entries; if one carries `sid`,
overwrite its handler and report success (`some` of the updated table);
`none` when no entry matches. -/
def res_overwrite (sid handler : Nat) : List ResEntry → Option (List ResEntry)
  | [] => none
  | e :: rest =>
    if e.sid = sid then some ({ sid := sid, handler := handler } :: rest)
    else (res_overwrite sid handler rest).map (e :: ·)

/-- `response_register` (response_registry.c, lines 74-97) on the registry
table (the list of its first `g_res_count` entries, in index order):
overwrite an existing entry for `sid`, else reject when the table is full
(`-1`), else append a new entry and grow the count.  Returns the new table
and the C return value. -/
def response_register (table : List ResEntry) (sid handler : Nat) :
    List ResEntry × Int :=
  match res_overwrite sid handler table with
  | some t => (t, 0)
  | none =>
    if table.length ≥ MAX_HANDLERS then (table, -1)
    else (table ++ [{ sid := sid, handler := handler }], 0)

/-- The handler `response_dispatch` would select for `sid`: the first
entry of the table carrying that SID (response_registry.c, lines 118-125). -/
def res_lookup (sid : Nat) : List ResEntry → Option Nat
  | [] => none
  | e :: rest => if e.sid = sid then some e.handler else res_lookup sid rest

/-- The single chain obtained by `chain_insert`-ing a sequence of nodes in
order into an initially empty chain; `register_all` restricted to one event
kind (used to relate the table fold to a per-chain fold). -/
def chain_fold (acc : List ServiceNode) (ns : List ServiceNode) : List ServiceNode :=
  ns.foldl (fun l n => chain_insert n l) acc

/- ==========================================================================
   Theorems.
   ========================================================================== -/

/-- C3: starting from a zero heartbeat failure counter, three consecutive
synchronously failing heartbeat sends (with no intervening successful
response) fire the registered disconnect callback exactly once; the
callback fires on the third failure and never while the counter is below
`MAX_HEARTBEAT_RETRIES`. -/
theorem heartbeat_disconnect_fires_once :
    (run_heartbeat_failures hb_init MAX_HEARTBEAT_RETRIES).disconnect_fires = 1 ∧
    (run_heartbeat_failures hb_init 0).disconnect_fires = 0 ∧
    (run_heartbeat_failures hb_init 1).disconnect_fires = 0 ∧
    (run_heartbeat_failures hb_init 2).disconnect_fires = 0 ∧
    (run_heartbeat_failures hb_init MAX_HEARTBEAT_RETRIES).fail_count =
      MAX_HEARTBEAT_RETRIES := by
  decide

/-- C7: the running CRC-32 of `crc32_calc` maps the empty input (with
initial value 0) to 0, and chains over concatenation: feeding B into the
CRC of A equals the CRC of `A ++ B`.  Hence a zero-byte upload yields CRC 0
and the running CRC over a transfer equals the CRC-32 of the concatenated
payload. -/
theorem crc32_chaining :
    crc32_calc 0 [] = 0 ∧
    ∀ A B : List Nat, crc32_calc (crc32_calc 0 A) B = crc32_calc 0 (A ++ B) := by
  constructor
  · simp [crc32_calc]
  · intro A B
    simp [crc32_calc, List.foldl_append, Nat.xor_cancel_right]

/-- C5: evaluation of `handle_transfer_exit` at a Reading-mode session
(`fd = 3 ≥ 0`, running CRC `0xDEADBEEF`) with the core's `copyResponse`
callback present: the handler does return the 4-byte big-endian CRC and
drops the mode to Idle, but it returns through `args->copyResponse` without
ever reaching the common `close(ctx->fd); ctx->fd = -1;` tail — the file
descriptor is neither closed nor invalidated, contradicting the claim (and
the spec's "In all cases, close the file and return to Idle"). -/
theorem transfer_exit_reading_fd_leak :
    (handle_transfer_exit ⟨3, FileMode.reading, "f", 0xDEADBEEF⟩ [] (some 0)).1.fd = 3 ∧
    (handle_transfer_exit ⟨3, FileMode.reading, "f", 0xDEADBEEF⟩ [] (some 0)).1.mode =
      FileMode.idle ∧
    (handle_transfer_exit ⟨3, FileMode.reading, "f", 0xDEADBEEF⟩ [] (some 0)).2.closed = [] ∧
    (handle_transfer_exit ⟨3, FileMode.reading, "f", 0xDEADBEEF⟩ [] (some 0)).2.response =
      [0xDE, 0xAD, 0xBE, 0xEF] ∧
    (handle_transfer_exit ⟨3, FileMode.reading, "f", 0xDEADBEEF⟩ [] (some 0)).2.ret =
      UDS_PositiveResponse := by
  refine ⟨rfl, rfl, rfl, ?_, rfl⟩
  decide

theorem res_overwrite_eq_none {sid handler : Nat} :
    ∀ {t : List ResEntry}, res_overwrite sid handler t = none ↔ ∀ e ∈ t, e.sid ≠ sid
  | [] => by simp [res_overwrite]
  | e :: rest => by
    by_cases h : e.sid = sid
    · simp [res_overwrite, h]
    · have ih := @res_overwrite_eq_none sid handler rest
      constructor
      · intro hn x hx
        rcases List.mem_cons.mp hx with rfl | hx2
        · exact h
        · cases hrest : res_overwrite sid handler rest with
          | none => exact ih.mp hrest x hx2
          | some r => simp [res_overwrite, h, hrest] at hn
      · intro hall
        have hrest : res_overwrite sid handler rest = none :=
          ih.mpr (fun x hx => hall x (List.mem_cons_of_mem _ hx))
        simp [res_overwrite, h, hrest]

theorem res_overwrite_eq_some {sid handler : Nat} :
    ∀ {t t2 : List ResEntry}, res_overwrite sid handler t = some t2 →
      t2.length = t.length ∧
      t2.map ResEntry.sid = t.map ResEntry.sid ∧
      res_lookup sid t2 = some handler ∧
      ∀ s, s ≠ sid → res_lookup s t2 = res_lookup s t
  | [], t2 => by simp [res_overwrite]
  | e :: rest, t2 => by
    by_cases h : e.sid = sid
    · simp only [res_overwrite, if_pos h, Option.some_inj]
      rintro rfl
      refine ⟨by simp, by simp [h], by simp [res_lookup], fun s hs => ?_⟩
      simp [res_lookup, h, Ne.symm hs]
    · intro hsome
      cases hrest : res_overwrite sid handler rest with
      | none => simp [res_overwrite, h, hrest] at hsome
      | some r2 =>
        have ht2 : t2 = e :: r2 := by
          simp [res_overwrite, h, hrest] at hsome
          exact hsome.symm
        obtain ⟨hlen, hmap, hfind, hother⟩ := res_overwrite_eq_some hrest
        subst ht2
        refine ⟨by simp [hlen], by simp [hmap], ?_, fun s hs => ?_⟩
        · simp [res_lookup, h, hfind]
        · by_cases he : e.sid = s <;> simp [res_lookup, he, hother s hs]

/-- C10: `response_register` called for a SID not present in a full
registry (`MAX_HANDLERS = 16` entries) returns `-1` and leaves the table
(and hence the count) unchanged; called for a SID already present it
returns `0`, keeps the count and the stored SIDs unchanged, rebinds that
SID to the new handler, and leaves every other SID's handler lookup
unchanged. -/
theorem response_register_full_and_overwrite (table : List ResEntry)
    (sid handler : Nat) :
    ((∀ e ∈ table, e.sid ≠ sid) → table.length = MAX_HANDLERS →
       response_register table sid handler = (table, -1)) ∧
    ((∃ e ∈ table, e.sid = sid) →
       (response_register table sid handler).2 = 0 ∧
       (response_register table sid handler).1.length = table.length ∧
       (response_register table sid handler).1.map ResEntry.sid =
         table.map ResEntry.sid ∧
       res_lookup sid (response_register table sid handler).1 = some handler ∧
       ∀ s, s ≠ sid →
         res_lookup s (response_register table sid handler).1 =
           res_lookup s table) := by
  constructor
  · intro habsent hfull
    have hnone : res_overwrite sid handler table = none :=
      res_overwrite_eq_none.mpr habsent
    simp [response_register, hnone, hfull]
  · intro hpresent
    obtain ⟨t2, ht2⟩ : ∃ t2, res_overwrite sid handler table = some t2 := by
      cases hcase : res_overwrite sid handler table with
      | none =>
        obtain ⟨e, he, hsid⟩ := hpresent
        exact absurd hsid (res_overwrite_eq_none.mp hcase e he)
      | some t2 => exact ⟨t2, rfl⟩
    obtain ⟨hlen, hmap, hfind, hother⟩ := res_overwrite_eq_some ht2
    have hreg : response_register table sid handler = (t2, 0) := by
      simp [response_register, ht2]
    rw [hreg]
    exact ⟨rfl, hlen, hmap, hfind, hother⟩

theorem response_register_witness :
    response_register
        [⟨0x62, 0⟩, ⟨0x6F, 1⟩, ⟨0x71, 2⟩, ⟨0x50, 3⟩, ⟨0x51, 4⟩, ⟨0x67, 5⟩,
         ⟨0x6E, 6⟩, ⟨0x78, 7⟩, ⟨0x7F, 8⟩, ⟨0x40, 9⟩, ⟨0x41, 10⟩, ⟨0x42, 11⟩,
         ⟨0x43, 12⟩, ⟨0x44, 13⟩, ⟨0x45, 14⟩, ⟨0x46, 15⟩] 0x22 99 =
      ([⟨0x62, 0⟩, ⟨0x6F, 1⟩, ⟨0x71, 2⟩, ⟨0x50, 3⟩, ⟨0x51, 4⟩, ⟨0x67, 5⟩,
        ⟨0x6E, 6⟩, ⟨0x78, 7⟩, ⟨0x7F, 8⟩, ⟨0x40, 9⟩, ⟨0x41, 10⟩, ⟨0x42, 11⟩,
        ⟨0x43, 12⟩, ⟨0x44, 13⟩, ⟨0x45, 14⟩, ⟨0x46, 15⟩], -1) ∧
    res_lookup 0x71
        (response_register
          [⟨0x62, 0⟩, ⟨0x6F, 1⟩, ⟨0x71, 2⟩, ⟨0x50, 3⟩] 0x71 42).1 = some 42 := by
  constructor
  · exact (response_register_full_and_overwrite _ 0x22 99).1 (by decide) (by decide)
  · exact ((response_register_full_and_overwrite
      [⟨0x62, 0⟩, ⟨0x6F, 1⟩, ⟨0x71, 2⟩, ⟨0x50, 3⟩] 0x71 42).2
      ⟨⟨0x71, 2⟩, by decide, rfl⟩).2.2.2.1

/-- C4 counterexample: a validate-key attempt on a matching-level instance
with an outstanding seed (`current_seed = 5`) but a 3-byte key returns
IncorrectMessageLengthOrInvalidFormat and leaves `current_seed = 5`: the
seed is NOT zero after this attempt, refuting "current_seed is zero after
the handler returns, regardless of outcome". -/
theorem validate_key_length_error_keeps_seed :
    (handle_validate_key ⟨1, 7, 5⟩ 1 [0, 0, 0]).1.current_seed ≠ 0 ∧
    (handle_validate_key ⟨1, 7, 5⟩ 1 [0, 0, 0]).1.current_seed = 5 ∧
    (handle_validate_key ⟨1, 7, 5⟩ 1 [0, 0, 0]).2 =
      UDS_NRC_IncorrectMessageLengthOrInvalidFormat := by
  decide

/-- C4 (amended): for a validate-key attempt on a matching-level instance,
the handler returns RequestSequenceError when `current_seed` is already 0;
with an outstanding seed but a key whose length differs from 4 it returns
IncorrectMessageLengthOrInvalidFormat leaving `current_seed` unchanged;
with an outstanding seed and a 4-byte key it clears `current_seed` before
comparing, and returns Positive exactly when the big-endian key equals
`algorithm(seed, secret_key)` and InvalidKey otherwise — so `current_seed`
is zero after every attempt that passes the length check. -/
theorem handle_validate_key_seed_clearing (ctx : SecService) (key : List Nat) :
    (ctx.current_seed = 0 →
       handle_validate_key ctx ctx.supported_level key =
         (ctx, UDS_NRC_RequestSequenceError)) ∧
    (ctx.current_seed ≠ 0 → key.length ≠ 4 →
       handle_validate_key ctx ctx.supported_level key =
         (ctx, UDS_NRC_IncorrectMessageLengthOrInvalidFormat)) ∧
    (ctx.current_seed ≠ 0 → ∀ k0 k1 k2 k3, key = [k0, k1, k2, k3] →
       (handle_validate_key ctx ctx.supported_level key).1.current_seed = 0 ∧
       (handle_validate_key ctx ctx.supported_level key).2 =
         (if be32_of_bytes k0 k1 k2 k3 = calculate_key ctx.current_seed ctx.secret_key
          then UDS_PositiveResponse else UDS_NRC_InvalidKey)) := by
  have hlvl : ¬ (ctx.supported_level ≠ ctx.supported_level) := fun hc => hc rfl
  refine ⟨fun hseed => ?_, fun hseed hlen => ?_, fun hseed k0 k1 k2 k3 hkey => ?_⟩
  · simp [handle_validate_key, hseed]
  · rcases key with _ | ⟨a, _ | ⟨b, _ | ⟨c, _ | ⟨d, _ | ⟨e, rest⟩⟩⟩⟩⟩
    · simp [handle_validate_key, hseed]
    · simp [handle_validate_key, hseed]
    · simp [handle_validate_key, hseed]
    · simp [handle_validate_key, hseed]
    · exact absurd rfl hlen
    · simp [handle_validate_key, hseed]
  · subst hkey
    by_cases hcmp : be32_of_bytes k0 k1 k2 k3 = calculate_key ctx.current_seed ctx.secret_key
    · simp [handle_validate_key, hseed, hcmp]
    · simp [handle_validate_key, hseed, hcmp]

/-- C4 witness: at the concrete instance (level 1, secret key 7, outstanding
seed 5) a matching 4-byte key (expected key 5 XOR 7 = 2, sent big-endian as
00 00 00 02) clears the seed and elicits Positive; a seed-less attempt gets
RequestSequenceError. -/
theorem handle_validate_key_seed_clearing_witness :
    (handle_validate_key ⟨1, 7, 5⟩ 1 [0, 0, 0, 2]).1.current_seed = 0 ∧
    handle_validate_key ⟨1, 7, 0⟩ 1 [1, 2, 3, 4] =
      (⟨1, 7, 0⟩, UDS_NRC_RequestSequenceError) := by
  constructor
  · exact ((handle_validate_key_seed_clearing ⟨1, 7, 5⟩ [0, 0, 0, 2]).2.2
      (by decide) 0 0 0 2 rfl).1
  · exact (handle_validate_key_seed_clearing ⟨1, 7, 0⟩ [1, 2, 3, 4]).1 rfl

theorem and_255_eq_mod (x : Nat) : x &&& 0xFF = x % 256 := by
  have h := Nat.and_pow_two_sub_one_eq_mod x 8
  norm_num at h
  exact h

theorem be32_round_trip (v : Nat) (h : v < 2 ^ 32) :
    be32_of_bytes ((v >>> 24) &&& 0xFF) ((v >>> 16) &&& 0xFF)
      ((v >>> 8) &&& 0xFF) (v &&& 0xFF) = v := by
  rw [be32_of_bytes, and_255_eq_mod, and_255_eq_mod, and_255_eq_mod, and_255_eq_mod,
    Nat.shiftRight_eq_div_pow, Nat.shiftRight_eq_div_pow, Nat.shiftRight_eq_div_pow,
    Nat.shiftLeft_eq, Nat.shiftLeft_eq, Nat.shiftLeft_eq]
  have e1 : v / 2 ^ 24 % 256 * 2 ^ 24 ||| v / 2 ^ 16 % 256 * 2 ^ 16 =
      v / 2 ^ 24 % 256 * 2 ^ 24 + v / 2 ^ 16 % 256 * 2 ^ 16 := by
    rw [Nat.mul_comm (v / 2 ^ 24 % 256)]
    exact (Nat.mul_add_lt_is_or (by omega) _).symm
  have e2 : v / 2 ^ 24 % 256 * 2 ^ 24 + v / 2 ^ 16 % 256 * 2 ^ 16 |||
        v / 2 ^ 8 % 256 * 2 ^ 8 =
      v / 2 ^ 24 % 256 * 2 ^ 24 + v / 2 ^ 16 % 256 * 2 ^ 16 +
        v / 2 ^ 8 % 256 * 2 ^ 8 := by
    rw [show v / 2 ^ 24 % 256 * 2 ^ 24 + v / 2 ^ 16 % 256 * 2 ^ 16 =
        2 ^ 16 * (v / 2 ^ 24 % 256 * 2 ^ 8 + v / 2 ^ 16 % 256) by ring]
    exact (Nat.mul_add_lt_is_or (by omega) _).symm
  have e3 : v / 2 ^ 24 % 256 * 2 ^ 24 + v / 2 ^ 16 % 256 * 2 ^ 16 +
        v / 2 ^ 8 % 256 * 2 ^ 8 ||| v % 256 =
      v / 2 ^ 24 % 256 * 2 ^ 24 + v / 2 ^ 16 % 256 * 2 ^ 16 +
        v / 2 ^ 8 % 256 * 2 ^ 8 + v % 256 := by
    rw [show v / 2 ^ 24 % 256 * 2 ^ 24 + v / 2 ^ 16 % 256 * 2 ^ 16 +
          v / 2 ^ 8 % 256 * 2 ^ 8 =
        2 ^ 8 * (v / 2 ^ 24 % 256 * 2 ^ 16 + v / 2 ^ 16 % 256 * 2 ^ 8 +
          v / 2 ^ 8 % 256) by ring]
    exact (Nat.mul_add_lt_is_or (by omega) _).symm
  rw [e1, e2, e3]
  omega

/-- C8: for a request-seed invocation whose level matches the instance's
`supported_level`: if the server's security level already equals that level
the handler hands a 4-byte all-zero seed to `copySeed` and leaves the
instance (in particular `current_seed`) unchanged; otherwise it stores the
freshly generated 32-bit seed in `current_seed` and hands it to `copySeed`
in big-endian byte order (decoding the four delivered bytes big-endian
gives back the seed). -/
theorem handle_request_seed_spec (ctx : SecService) (srvLevel fresh : Nat)
    (copy_ret : Int) (hfresh : fresh < 2 ^ 32) :
    (srvLevel = ctx.supported_level →
       handle_request_seed ctx srvLevel ctx.supported_level fresh copy_ret =
         (ctx, [0, 0, 0, 0], copy_ret)) ∧
    (srvLevel ≠ ctx.supported_level →
       (handle_request_seed ctx srvLevel ctx.supported_level fresh copy_ret).1 =
         { ctx with current_seed := fresh } ∧
       (handle_request_seed ctx srvLevel ctx.supported_level fresh copy_ret).2.1 =
         be32_to_bytes fresh ∧
       be32_of_bytes ((fresh >>> 24) &&& 0xFF) ((fresh >>> 16) &&& 0xFF)
         ((fresh >>> 8) &&& 0xFF) (fresh &&& 0xFF) = fresh ∧
       (handle_request_seed ctx srvLevel ctx.supported_level fresh copy_ret).2.2 =
         copy_ret) := by
  constructor
  · intro hunlocked
    simp [handle_request_seed, hunlocked]
  · intro hlocked
    refine ⟨?_, ?_, be32_round_trip fresh hfresh, ?_⟩ <;>
      simp [handle_request_seed, hlocked, be32_to_bytes]

/-- C8 witness: concrete instance (level 1, secret 7, no outstanding seed);
an already-unlocked server (level 1) gets the zero seed with the instance
untouched; a locked server (level 0) gets the fresh seed 0x01020304 as
bytes 01 02 03 04 with `current_seed` updated. -/
theorem handle_request_seed_spec_witness :
    handle_request_seed ⟨1, 7, 0⟩ 1 1 0x01020304 0 = (⟨1, 7, 0⟩, [0, 0, 0, 0], 0) ∧
    (handle_request_seed ⟨1, 7, 0⟩ 0 1 0x01020304 0).1 = ⟨1, 7, 0x01020304⟩ ∧
    (handle_request_seed ⟨1, 7, 0⟩ 0 1 0x01020304 0).2.1 = [1, 2, 3, 4] := by
  refine ⟨(handle_request_seed_spec ⟨1, 7, 0⟩ 1 0x01020304 0 (by decide)).1 rfl,
    ((handle_request_seed_spec ⟨1, 7, 0⟩ 0 0x01020304 0 (by decide)).2
      (by decide)).1, ?_⟩
  have h := ((handle_request_seed_spec ⟨1, 7, 0⟩ 0 0x01020304 0 (by decide)).2
    (by decide)).2.1
  rw [h]
  decide

/-- C6 counterexample: a download whose local `fopen` and initial 0x38
transaction both succeed but whose first TransferData block fails with
NRC 0x31 returns failure (-1) with the partial file left in place
(`remove` is never called on this path), refuting "whenever a download
aborts after the local file has been opened ... the client deletes the
partial downloaded file". -/
theorem download_block_error_keeps_partial_file :
    ¬ (∀ (env : DlEnv) (r : DlResult), env.fopen_ok = true →
         handle_download env = some r → r.ret = -1 → r.removed = true) := by
  intro hclaim
  have h := hclaim { fopen_ok := true, req_ok := true, total_size := 10,
                     blocks := [{ nrc := 0x31, data := [] }], exit_ok := true }
      { ret := -1, opened := true, removed := false, written := 0 }
      rfl (by decide) rfl
  exact absurd h (by decide)

/-- C6 (amended): after the local file has been opened, the client deletes
the partial downloaded file exactly when the initial RequestFileTransfer
transaction fails (returning -1); when a TransferData block fails with a
nonzero NRC mid-transfer the client also returns -1 but closes the file
WITHOUT deleting it. -/
theorem handle_download_removal (env : DlEnv) (r : DlResult)
    (hopen : env.fopen_ok = true) (hrun : handle_download env = some r) :
    (r.removed = true ↔ env.req_ok = false) ∧
    (env.req_ok = false → r.ret = -1 ∧ r.removed = true) ∧
    (env.req_ok = true →
       ∀ w, dl_loop env.total_size env.blocks 0 = some (DlLoopOut.err w) →
         r.ret = -1 ∧ r.removed = false) := by
  by_cases hreq : env.req_ok = true
  · cases hloop : dl_loop env.total_size env.blocks 0 with
    | none =>
      rw [handle_download] at hrun
      simp [hopen, hreq, hloop] at hrun
    | some out =>
      cases out with
      | err w =>
        rw [handle_download] at hrun
        simp [hopen, hreq, hloop] at hrun
        subst hrun
        refine ⟨by simp [hreq], fun hc => absurd hc (by simp [hreq]), ?_⟩
        intro _ w2 hw2
        exact ⟨rfl, rfl⟩
      | done w =>
        rw [handle_download] at hrun
        simp [hopen, hreq, hloop] at hrun
        subst hrun
        refine ⟨by simp [hreq], fun hc => absurd hc (by simp [hreq]), ?_⟩
        intro _ w2 hw2
        simp at hw2
  · have hreq2 : env.req_ok = false := by
      simpa using hreq
    rw [handle_download] at hrun
    simp [hopen, hreq2] at hrun
    subst hrun
    exact ⟨by simp [hreq2], fun _ => ⟨rfl, rfl⟩, fun hc => absurd hc (by simp [hreq2])⟩

/-- C6 witness: concrete runs through `handle_download_removal` — a failing
initial 0x38 transaction removes the partial file; a mid-transfer block
NRC (0x31 on the first TransferData) leaves it in place. -/
theorem handle_download_removal_witness :
    ({ ret := -1, opened := true, removed := true, written := 0 : DlResult }.removed
        = true) ∧
    ({ ret := -1, opened := true, removed := false, written := 0 : DlResult }.ret
        = -1 ∧
     { ret := -1, opened := true, removed := false, written := 0 : DlResult }.removed
        = false) := by
  constructor
  · exact ((handle_download_removal
      { fopen_ok := true, req_ok := false, total_size := 10, blocks := [],
        exit_ok := true }
      { ret := -1, opened := true, removed := true, written := 0 }
      rfl (by decide)).2.1 rfl).2
  · exact (handle_download_removal
      { fopen_ok := true, req_ok := true, total_size := 10,
        blocks := [{ nrc := 0x31, data := [] }], exit_ok := true }
      { ret := -1, opened := true, removed := false, written := 0 }
      rfl (by decide)).2.2 rfl 0 (by decide)

/-- C1 counterexample: the claim annotates "SubFunctionNotSupported" with
the byte 0x7E, but 0x7E is SubFunctionNotSupportedInActiveSession; the
dispatcher's "not mine" comparison uses `UDS_NRC_SubFunctionNotSupported`
(0x12).  A chain whose first handler returns 0x7E followed by a handler
returning Positive yields 0x7E (the chain stops and returns it), not the
Positive the claim's "try next" reading predicts. -/
theorem dispatcher_treats_0x7E_as_stop :
    server_event_dispatcher
        [UDS_NRC_SubFunctionNotSupportedInActiveSession, UDS_PositiveResponse] =
      UDS_NRC_SubFunctionNotSupportedInActiveSession ∧
    UDS_NRC_SubFunctionNotSupportedInActiveSession ≠ UDS_PositiveResponse := by
  decide

theorem dispatch_loop_characterization :
    ∀ (chain : List Int) (acc : Int),
      dispatch_loop chain acc =
        (chain.find? dispatch_stops).getD
          (if RTT_UDS_CONTINUE ∈ chain then UDS_PositiveResponse else acc)
  | [], acc => by simp [dispatch_loop]
  | r :: rest, acc => by
    by_cases hc : r = RTT_UDS_CONTINUE
    · subst hc
      rw [dispatch_loop, if_pos rfl, dispatch_loop_characterization rest UDS_PositiveResponse]
      have hs : dispatch_stops RTT_UDS_CONTINUE = false := by decide
      simp [List.find?, hs, ite_self]
    · by_cases hp : r = UDS_PositiveResponse ∨
          r = UDS_NRC_RequestCorrectlyReceived_ResponsePending
      · have hs : dispatch_stops r = true := by
          rcases hp with rfl | rfl <;> decide
        rw [dispatch_loop, if_neg hc, if_pos hp]
        simp [List.find?, hs]
      · by_cases hn : r = UDS_NRC_RequestOutOfRange ∨
            r = UDS_NRC_SubFunctionNotSupported
        · have hs : dispatch_stops r = false := by
            rcases hn with rfl | rfl <;> decide
          have hm : (RTT_UDS_CONTINUE ∈ r :: rest) ↔ (RTT_UDS_CONTINUE ∈ rest) := by
            constructor
            · intro h
              rcases List.mem_cons.mp h with h2 | h2
              · exact absurd h2.symm hc
              · exact h2
            · exact List.mem_cons_of_mem r
          rw [dispatch_loop, if_neg hc, if_neg hp, if_pos hn,
            dispatch_loop_characterization rest acc]
          simp [List.find?, hs, hm]
        · have hs : dispatch_stops r = true := by
            simp only [dispatch_stops, decide_eq_true_eq]
            rintro (h | h | h)
            · exact hc h
            · exact hn (Or.inl h)
            · exact hn (Or.inr h)
          rw [dispatch_loop, if_neg hc, if_neg hp, if_neg hn]
          simp [List.find?, hs]

/-- C1 (amended): for every chain of handler results, the dispatcher
returns the first result that is neither the CONTINUE sentinel nor one of
the two "not mine" codes RequestOutOfRange (0x31) and
SubFunctionNotSupported (0x12) — Positive and RCR-ResponsePending (0x78)
stop the chain and are returned, as does any other NRC (including
SubFunctionNotSupportedInActiveSession, 0x7E); if no such result exists
the dispatcher returns Positive when some handler returned CONTINUE and
ServiceNotSupported otherwise, and an empty chain yields
ServiceNotSupported. -/
theorem server_event_dispatcher_characterization :
    server_event_dispatcher [] = UDS_NRC_ServiceNotSupported ∧
    ∀ chain : List Int,
      server_event_dispatcher chain =
        (chain.find? dispatch_stops).getD
          (if RTT_UDS_CONTINUE ∈ chain then UDS_PositiveResponse
           else UDS_NRC_ServiceNotSupported) := by
  constructor
  · rfl
  · intro chain
    cases chain with
    | nil => simp [server_event_dispatcher]
    | cons r rest =>
      rw [server_event_dispatcher, if_neg (by simp)]
      exact dispatch_loop_characterization (r :: rest) _

theorem chain_insert_mem (n : ServiceNode) :
    ∀ (l : List ServiceNode) (x : ServiceNode),
      x ∈ chain_insert n l ↔ x = n ∨ x ∈ l
  | [], x => by simp [chain_insert]
  | c :: rest, x => by
    rw [chain_insert]
    by_cases h : n.priority < c.priority
    · simp only [if_pos h, List.mem_cons]
    · simp only [if_neg h, List.mem_cons, chain_insert_mem n rest x]
      tauto

theorem chain_insert_pairwise (n : ServiceNode) :
    ∀ l : List ServiceNode,
      l.Pairwise (fun a b => a.priority ≤ b.priority) →
      (chain_insert n l).Pairwise (fun a b => a.priority ≤ b.priority)
  | [], _ => by simp [chain_insert]
  | c :: rest, h => by
    rcases List.pairwise_cons.mp h with ⟨hc, hrest⟩
    rw [chain_insert]
    by_cases hlt : n.priority < c.priority
    · rw [if_pos hlt]
      refine List.pairwise_cons.mpr ⟨?_, h⟩
      intro x hx
      rcases List.mem_cons.mp hx with rfl | hx2
      · exact Nat.le_of_lt hlt
      · exact Nat.le_trans (Nat.le_of_lt hlt) (hc x hx2)
    · rw [if_neg hlt]
      refine List.pairwise_cons.mpr ⟨?_, chain_insert_pairwise n rest hrest⟩
      intro x hx
      rcases (chain_insert_mem n rest x).mp hx with rfl | hx2
      · exact Nat.le_of_not_lt hlt
      · exact hc x hx2

theorem chain_insert_filter (n : ServiceNode) (p : Nat) :
    ∀ l : List ServiceNode,
      l.Pairwise (fun a b => a.priority ≤ b.priority) →
      (chain_insert n l).filter (fun x => x.priority == p) =
        (if n.priority = p
         then l.filter (fun x => x.priority == p) ++ [n]
         else l.filter (fun x => x.priority == p))
  | [], _ => by
    by_cases h : n.priority = p <;> simp [chain_insert, h]
  | c :: rest, hp => by
    rcases List.pairwise_cons.mp hp with ⟨hc, hrest⟩
    rw [chain_insert]
    by_cases hlt : n.priority < c.priority
    · rw [if_pos hlt]
      by_cases hnp : n.priority = p
      · have hfilter : (c :: rest).filter (fun x => x.priority == p) = [] := by
          rw [List.filter_eq_nil_iff]
          intro x hx
          rcases List.mem_cons.mp hx with rfl | hx2
          · simp only [beq_iff_eq]
            omega
          · have hcx := hc x hx2
            simp only [beq_iff_eq]
            omega
        simp [List.filter_cons, hnp, hfilter]
      · simp [List.filter_cons, hnp]
    · rw [if_neg hlt]
      by_cases hnp : n.priority = p
      · rw [if_pos hnp]
        simp only [List.filter_cons, chain_insert_filter n p rest hrest, if_pos hnp]
        by_cases hcp : (c.priority == p) = true
        · simp [hcp]
        · simp [hcp]
      · rw [if_neg hnp]
        simp only [List.filter_cons, chain_insert_filter n p rest hrest, if_neg hnp]

theorem chain_fold_pairwise :
    ∀ (ns acc : List ServiceNode),
      acc.Pairwise (fun a b => a.priority ≤ b.priority) →
      (chain_fold acc ns).Pairwise (fun a b => a.priority ≤ b.priority)
  | [], _, h => h
  | n :: rest, acc, h =>
    chain_fold_pairwise rest (chain_insert n acc) (chain_insert_pairwise n acc h)

theorem chain_fold_filter (p : Nat) :
    ∀ (ns acc : List ServiceNode),
      acc.Pairwise (fun a b => a.priority ≤ b.priority) →
      (chain_fold acc ns).filter (fun x => x.priority == p) =
        acc.filter (fun x => x.priority == p) ++ ns.filter (fun x => x.priority == p)
  | [], acc, _ => by simp [chain_fold]
  | n :: rest, acc, h => by
    have ih := chain_fold_filter p rest (chain_insert n acc)
      (chain_insert_pairwise n acc h)
    show (chain_fold (chain_insert n acc) rest).filter (fun x => x.priority == p) = _
    rw [ih, chain_insert_filter n p acc h]
    by_cases hnp : n.priority = p
    · rw [if_pos hnp]
      simp [List.filter_cons, hnp]
    · rw [if_neg hnp]
      simp [List.filter_cons, hnp]

theorem register_all_eq_chain_fold (e : Nat) :
    ∀ (nodes : List ServiceNode) (table : Nat → List ServiceNode),
      nodes.foldl rtt_uds_service_register table e =
        chain_fold (table e) (nodes.filter (fun n => n.event == e))
  | [], table => by simp [chain_fold]
  | n :: rest, table => by
    show (rest.foldl rtt_uds_service_register (rtt_uds_service_register table n)) e = _
    rw [register_all_eq_chain_fold e rest (rtt_uds_service_register table n)]
    by_cases he : n.event = e
    · have htab : (rtt_uds_service_register table n) e = chain_insert n (table e) := by
        simp [rtt_uds_service_register, he]
      rw [htab, List.filter_cons, if_pos (by simp [he])]
      rfl
    · have htab : (rtt_uds_service_register table n) e = table e := by
        simp [rtt_uds_service_register, Ne.symm he]
      rw [htab, List.filter_cons, if_neg (by simp [he])]

/-- C2: after any sequence of `rtt_uds_service_register` calls, each event
kind's chain is sorted by the nodes' priority in ascending order
(`Pairwise ≤` over positions); for every priority value the chain's nodes
of that priority are exactly the registered nodes of that event and
priority in their registration order (stable insertion); and a node with a
strictly smaller priority occupies a strictly earlier chain position (the
dispatcher iterates the chain front to back, so it executes first). -/
theorem service_registration_priority_order (nodes : List ServiceNode) (e : Nat) :
    (register_all nodes e).Pairwise (fun a b => a.priority ≤ b.priority) ∧
    (∀ p, (register_all nodes e).filter (fun x => x.priority == p) =
       (nodes.filter (fun n => n.event == e)).filter (fun x => x.priority == p)) ∧
    (∀ i j : Fin (register_all nodes e).length,
       ((register_all nodes e).get i).priority <
         ((register_all nodes e).get j).priority →
       (i : Nat) < (j : Nat)) := by
  have heq : register_all nodes e =
      chain_fold [] (nodes.filter (fun n => n.event == e)) :=
    register_all_eq_chain_fold e nodes (fun _ => [])
  have hpw : (register_all nodes e).Pairwise (fun a b => a.priority ≤ b.priority) := by
    rw [heq]
    exact chain_fold_pairwise _ [] List.Pairwise.nil
  refine ⟨hpw, fun p => ?_, fun i j hij => ?_⟩
  · rw [heq, chain_fold_filter p _ [] List.Pairwise.nil]
    simp
  · rcases Nat.lt_trichotomy (i : Nat) (j : Nat) with h | h | h
    · exact h
    · exact absurd hij (by rw [Fin.ext h]; exact lt_irrefl _)
    · have hle := (List.pairwise_iff_get.mp hpw) j i (Fin.lt_def.mpr h)
      omega

/-- C2 witness: registering priority 200 then priority 100 on event 1
yields the chain [100, 200]; the third clause of
`service_registration_priority_order` places the smaller priority at the
earlier position. -/
theorem service_registration_priority_order_witness :
    ((register_all [⟨1, 200, 0⟩, ⟨1, 100, 1⟩] 1).get ⟨0, by decide⟩).priority <
      ((register_all [⟨1, 200, 0⟩, ⟨1, 100, 1⟩] 1).get ⟨1, by decide⟩).priority ∧
    (0 : Nat) < 1 := by
  refine ⟨by decide, ?_⟩
  exact (service_registration_priority_order [⟨1, 200, 0⟩, ⟨1, 100, 1⟩] 1).2.2
    ⟨0, by decide⟩ ⟨1, by decide⟩ (by decide)

theorem buf_memcpy_eq_of_lt :
    ∀ (src : List Nat) (buf : Nat → Nat) (dst j : Nat), j < dst →
      buf_memcpy buf dst src j = buf j
  | [], _, _, _, _ => rfl
  | b :: rest, buf, dst, j, h => by
    rw [buf_memcpy, buf_memcpy_eq_of_lt rest _ (dst + 1) j (by omega)]
    exact Function.update_noteq (show j ≠ dst by omega) b buf

theorem buf_memcpy_eq_of_ge :
    ∀ (src : List Nat) (buf : Nat → Nat) (dst j : Nat), dst + src.length ≤ j →
      buf_memcpy buf dst src j = buf j
  | [], _, _, _, _ => rfl
  | b :: rest, buf, dst, j, h => by
    have hlen : (b :: rest).length = rest.length + 1 := rfl
    rw [buf_memcpy, buf_memcpy_eq_of_ge rest _ (dst + 1) j (by rw [hlen] at h; omega)]
    exact Function.update_noteq (show j ≠ dst by rw [hlen] at h; omega) b buf

theorem buf_memcpy_get :
    ∀ (src : List Nat) (buf : Nat → Nat) (dst i : Nat) (h : i < src.length),
      buf_memcpy buf dst src (dst + i) = src.get ⟨i, h⟩
  | [], _, _, i, h => absurd h (by simp)
  | b :: rest, buf, dst, i, h => by
    rw [buf_memcpy]
    cases i with
    | zero =>
      rw [buf_memcpy_eq_of_lt rest _ (dst + 1) (dst + 0) (by omega)]
      simp
    | succ k =>
      have harith : dst + (k + 1) = (dst + 1) + k := by omega
      rw [harith, buf_memcpy_get rest _ (dst + 1) k (by simp at h; omega)]
      rfl

theorem vcon_available_eq (pos : Nat) (h : pos ≤ UDS_CONSOLE_BUF_SIZE - 1) :
    ((((UDS_CONSOLE_BUF_SIZE : Nat) : Int) - (pos : Int) - 1) % (2 ^ 32 : Int)).toNat =
      UDS_CONSOLE_BUF_SIZE - pos - 1 := by
  rw [show ((2 : Int) ^ 32) = 4294967296 by norm_num]
  rw [UDS_CONSOLE_BUF_SIZE] at h ⊢
  omega

theorem vcon_write_not_overflow (st : VconState) (w : List Nat)
    (hov : st.overflow = false) (hpos : st.pos ≤ UDS_CONSOLE_BUF_SIZE - 1) :
    vcon_write st w =
      (if w.length ≤ UDS_CONSOLE_BUF_SIZE - st.pos - 1 then
        ({ buffer := Function.update (buf_memcpy st.buffer st.pos w)
             (st.pos + w.length) 0,
           pos := st.pos + w.length, overflow := false }, w.length)
      else
        ({ buffer := Function.update
             (buf_memcpy
               (if UDS_CONSOLE_BUF_SIZE - st.pos - 1 > vcon_marker.length then
                  buf_memcpy st.buffer st.pos
                    (w.take (UDS_CONSOLE_BUF_SIZE - st.pos - 1 - vcon_marker.length))
                else st.buffer)
               (UDS_CONSOLE_BUF_SIZE - 1 - vcon_marker.length) vcon_marker)
             (UDS_CONSOLE_BUF_SIZE - 1) 0,
           pos := UDS_CONSOLE_BUF_SIZE - 1, overflow := true }, w.length)) := by
  have hav := vcon_available_eq st.pos hpos
  rw [vcon_write, if_neg (by simp [hov])]
  simp only [hav]
  by_cases hfit : w.length ≤ UDS_CONSOLE_BUF_SIZE - st.pos - 1
  · rw [if_pos hfit, if_pos hfit]
  · rw [if_neg hfit, if_neg hfit]
    rw [UDS_CONSOLE_BUF_SIZE] at hpos hfit ⊢
    have hmlen : vcon_marker.length = 13 := rfl
    rw [hmlen]
    rcases Nat.lt_trichotomy (4000 - st.pos - 1) 13 with hA | hA | hA
    · have c1 : ¬ (4000 - st.pos - 1 > 13) := by omega
      have c3 : st.pos ≥ 13 - (4000 - st.pos - 1) := by omega
      rw [if_neg c1, if_neg c1, if_pos hA, if_pos c3]
      have h1 : st.pos - (13 - (4000 - st.pos - 1)) = 4000 - 1 - 13 := by omega
      have h2 : 4000 - 1 - 13 + 13 = 4000 - 1 := by omega
      rw [h1, h2]
    · have c1 : ¬ (4000 - st.pos - 1 > 13) := by omega
      have c2 : ¬ (4000 - st.pos - 1 < 13) := by omega
      rw [if_neg c1, if_neg c1, if_neg c2]
      have h1 : st.pos = 4000 - 1 - 13 := by omega
      rw [h1]
    · rw [if_pos hA, if_pos hA]
      have h1 : st.pos + (4000 - st.pos - 1 - 13) = 4000 - 1 - 13 := by omega
      have h2 : 4000 - 1 - 13 + 13 = 4000 - 1 := by omega
      rw [h1, h2]

theorem vcon_write_overflow_stuck (st : VconState) (w : List Nat)
    (h : st.overflow = true) : vcon_write st w = (st, w.length) := by
  simp [vcon_write, h]

theorem vcon_write_preserves (st : VconState) (w : List Nat)
    (hpos : st.pos ≤ UDS_CONSOLE_BUF_SIZE - 1) (hnul : st.buffer st.pos = 0) :
    (vcon_write st w).1.pos ≤ UDS_CONSOLE_BUF_SIZE - 1 ∧
    (vcon_write st w).1.buffer ((vcon_write st w).1.pos) = 0 := by
  cases hov : st.overflow with
  | true =>
    rw [vcon_write_overflow_stuck st w hov]
    exact ⟨hpos, hnul⟩
  | false =>
    rw [vcon_write_not_overflow st w hov hpos]
    by_cases hfit : w.length ≤ UDS_CONSOLE_BUF_SIZE - st.pos - 1
    · rw [if_pos hfit]
      refine ⟨?_, by simp⟩
      show st.pos + w.length ≤ UDS_CONSOLE_BUF_SIZE - 1
      rw [UDS_CONSOLE_BUF_SIZE] at hpos hfit ⊢
      omega
    · rw [if_neg hfit]
      exact ⟨Nat.le_refl _, by simp⟩

theorem vcon_write_frame (st : VconState) (w : List Nat)
    (hpos : st.pos ≤ UDS_CONSOLE_BUF_SIZE - 1) :
    ∀ j, UDS_CONSOLE_BUF_SIZE ≤ j → (vcon_write st w).1.buffer j = st.buffer j := by
  intro j hj
  cases hov : st.overflow with
  | true => rw [vcon_write_overflow_stuck st w hov]
  | false =>
    rw [vcon_write_not_overflow st w hov hpos]
    rw [UDS_CONSOLE_BUF_SIZE] at hpos hj ⊢
    by_cases hfit : w.length ≤ 4000 - st.pos - 1
    · rw [if_pos hfit]
      show Function.update (buf_memcpy st.buffer st.pos w) (st.pos + w.length) 0 j =
        st.buffer j
      rw [Function.update_noteq (show j ≠ st.pos + w.length by omega)]
      exact buf_memcpy_eq_of_ge w st.buffer st.pos j (by omega)
    · rw [if_neg hfit]
      show Function.update
          (buf_memcpy _ (4000 - 1 - vcon_marker.length) vcon_marker) (4000 - 1) 0 j =
        st.buffer j
      rw [Function.update_noteq (show j ≠ 4000 - 1 by omega)]
      rw [buf_memcpy_eq_of_ge vcon_marker _ (4000 - 1 - vcon_marker.length) j
        (by rw [show vcon_marker.length = 13 from rfl]; omega)]
      by_cases hA : 4000 - st.pos - 1 > vcon_marker.length
      · rw [if_pos hA]
        refine buf_memcpy_eq_of_ge _ st.buffer st.pos j ?_
        have htk := List.length_take (4000 - st.pos - 1 - vcon_marker.length) w
        have hmin := Nat.min_le_left (4000 - st.pos - 1 - vcon_marker.length) w.length
        rw [show vcon_marker.length = 13 from rfl] at htk hmin ⊢
        omega
      · rw [if_neg hA]

theorem vcon_write_truncate (st : VconState) (w : List Nat)
    (hpos : st.pos ≤ UDS_CONSOLE_BUF_SIZE - 1) (hov : st.overflow = false)
    (hfit : UDS_CONSOLE_BUF_SIZE - st.pos - 1 < w.length) :
    (vcon_write st w).1.overflow = true ∧
    (vcon_write st w).1.pos = UDS_CONSOLE_BUF_SIZE - 1 ∧
    (∀ i, (h : i < vcon_marker.length) →
      (vcon_write st w).1.buffer
        (UDS_CONSOLE_BUF_SIZE - 1 - vcon_marker.length + i) = vcon_marker.get ⟨i, h⟩) ∧
    (vcon_write st w).1.buffer (UDS_CONSOLE_BUF_SIZE - 1) = 0 := by
  rw [vcon_write_not_overflow st w hov hpos, if_neg (by omega)]
  refine ⟨rfl, rfl, ?_, by simp⟩
  intro i h
  have h13 : i < 13 := h
  show Function.update
      (buf_memcpy _ (UDS_CONSOLE_BUF_SIZE - 1 - vcon_marker.length) vcon_marker)
      (UDS_CONSOLE_BUF_SIZE - 1) 0
      (UDS_CONSOLE_BUF_SIZE - 1 - vcon_marker.length + i) = vcon_marker.get ⟨i, h⟩
  rw [Function.update_noteq
    (show UDS_CONSOLE_BUF_SIZE - 1 - vcon_marker.length + i ≠ UDS_CONSOLE_BUF_SIZE - 1 by
      rw [show vcon_marker.length = 13 from rfl, UDS_CONSOLE_BUF_SIZE]
      omega)]
  exact buf_memcpy_get vcon_marker _ (UDS_CONSOLE_BUF_SIZE - 1 - vcon_marker.length) i h

theorem vcon_foldl_inv :
    ∀ (writes : List (List Nat)) (st : VconState),
      st.pos ≤ UDS_CONSOLE_BUF_SIZE - 1 → st.buffer st.pos = 0 →
      ((writes.foldl (fun s u => (vcon_write s u).1) st).pos ≤
          UDS_CONSOLE_BUF_SIZE - 1 ∧
        (writes.foldl (fun s u => (vcon_write s u).1) st).buffer
          ((writes.foldl (fun s u => (vcon_write s u).1) st).pos) = 0 ∧
        ∀ j, UDS_CONSOLE_BUF_SIZE ≤ j →
          (writes.foldl (fun s u => (vcon_write s u).1) st).buffer j = st.buffer j)
  | [], st, hpos, hnul => ⟨hpos, hnul, fun _ _ => rfl⟩
  | u :: rest, st, hpos, hnul => by
    obtain ⟨hpos2, hnul2⟩ := vcon_write_preserves st u hpos hnul
    obtain ⟨hp, hn, hf⟩ := vcon_foldl_inv rest (vcon_write st u).1 hpos2 hnul2
    refine ⟨hp, hn, fun j hj => ?_⟩
    show (rest.foldl (fun s u => (vcon_write s u).1) (vcon_write st u).1).buffer j =
      st.buffer j
    rw [hf j hj, vcon_write_frame st u hpos j hj]

theorem vcon_run_inv (initial : Nat → Nat) (writes : List (List Nat)) :
    (vcon_run initial writes).pos ≤ UDS_CONSOLE_BUF_SIZE - 1 ∧
    (vcon_run initial writes).buffer ((vcon_run initial writes).pos) = 0 ∧
    ∀ j, UDS_CONSOLE_BUF_SIZE ≤ j →
      (vcon_run initial writes).buffer j = initial j := by
  have h0 : (vcon_init_state initial).pos ≤ UDS_CONSOLE_BUF_SIZE - 1 := by
    rw [UDS_CONSOLE_BUF_SIZE]
    exact Nat.zero_le _
  have h1 : (vcon_init_state initial).buffer (vcon_init_state initial).pos = 0 := by
    simp [vcon_init_state]
  obtain ⟨hp, hn, hf⟩ := vcon_foldl_inv writes (vcon_init_state initial) h0 h1
  refine ⟨hp, hn, fun j hj => ?_⟩
  rw [vcon_run, hf j hj]
  show Function.update initial 0 0 j = initial j
  exact Function.update_noteq
    (show j ≠ 0 by rw [UDS_CONSOLE_BUF_SIZE] at hj; omega) 0 initial

/-- C9: for every sequence of writes to the console capture sink starting
from the `capture_start` state, and every further `vcon_write` call: the
write position stays at most `UDS_CONSOLE_BUF_SIZE - 1`, the byte at the
write position is the NUL terminator, and no byte at or beyond index
`UDS_CONSOLE_BUF_SIZE` is ever stored (the buffer there still holds its
initial contents); on a write that does not fit while overflow is clear,
the buffer ends with the literal `"\n[TRUNCATED]\n"` marker (its 13 bytes
sit right below the final NUL at position `UDS_CONSOLE_BUF_SIZE - 1`) and
the overflow flag is set; and once overflow is set, a write returns its
size and leaves buffer and position unchanged. -/
theorem vcon_write_safety (initial : Nat → Nat) (writes : List (List Nat))
    (w : List Nat) :
    (vcon_write (vcon_run initial writes) w).1.pos ≤ UDS_CONSOLE_BUF_SIZE - 1 ∧
    (vcon_write (vcon_run initial writes) w).1.buffer
      ((vcon_write (vcon_run initial writes) w).1.pos) = 0 ∧
    (∀ j, UDS_CONSOLE_BUF_SIZE ≤ j →
      (vcon_write (vcon_run initial writes) w).1.buffer j = initial j) ∧
    ((vcon_run initial writes).overflow = false →
      UDS_CONSOLE_BUF_SIZE - (vcon_run initial writes).pos - 1 < w.length →
      (vcon_write (vcon_run initial writes) w).1.overflow = true ∧
      (vcon_write (vcon_run initial writes) w).1.pos = UDS_CONSOLE_BUF_SIZE - 1 ∧
      (∀ i, (h : i < vcon_marker.length) →
        (vcon_write (vcon_run initial writes) w).1.buffer
          (UDS_CONSOLE_BUF_SIZE - 1 - vcon_marker.length + i) =
          vcon_marker.get ⟨i, h⟩) ∧
      (vcon_write (vcon_run initial writes) w).1.buffer
        (UDS_CONSOLE_BUF_SIZE - 1) = 0) ∧
    ((vcon_run initial writes).overflow = true →
      vcon_write (vcon_run initial writes) w = (vcon_run initial writes, w.length)) := by
  obtain ⟨hp, hn, hf⟩ := vcon_run_inv initial writes
  obtain ⟨hp2, hn2⟩ := vcon_write_preserves _ w hp hn
  refine ⟨hp2, hn2, fun j hj => ?_,
    fun hov hfit => vcon_write_truncate _ w hp hov hfit,
    fun hov => vcon_write_overflow_stuck _ w hov⟩
  rw [vcon_write_frame _ w hp j hj, hf j hj]

/-- C9 witness: a single 4000-byte write to the fresh capture state does
not fit (3999 bytes are available) and trips the truncation path: the
overflow flag is set and the position lands on the final NUL slot 3999. -/
theorem vcon_write_safety_witness :
    (vcon_write (vcon_run (fun _ => 7) []) (List.replicate 4000 65)).1.overflow =
      true ∧
    (vcon_write (vcon_run (fun _ => 7) []) (List.replicate 4000 65)).1.pos =
      UDS_CONSOLE_BUF_SIZE - 1 := by
  have h := (vcon_write_safety (fun _ => 7) [] (List.replicate 4000 65)).2.2.2.1
    rfl (by rw [List.length_replicate, UDS_CONSOLE_BUF_SIZE]; show 4000 - 0 - 1 < 4000; omega)
  exact ⟨h.1, h.2.1⟩
